import Mathlib

/-!
Shallow embedding of `src/app/index.tsx` (the AliComms app shell):
the `SplashScreen` onboarding controller and the `WebViewComponent`
browser pane, with theorems checking the specification's claims about
their behaviour.

The embedding models:
* the `FAQs` constant,
* the async `checkFirstTime` effect as a function from the results of the
  two storage operations to the list of side effects it performs together
  with the value the async closure resolves with,
* the `useEffect` body, which invokes `checkFirstTime()` without returning
  its eventual value, so the cleanup React registers is `none`,
* `setTimeout` firing semantics under an optional unmount time,
* the render function of `SplashScreen` as a function of `isFirstTime`
  and `currentFAQ`,
* the action button (`handleNextFAQ` vs direct `onDone`), and
* the `WebViewComponent` error state (`errorMessage`) and its render.
-/

namespace AlicommsApp

/-- The static FAQ list from the source (`const FAQs = [...]`). -/
structure FaqEntry where
  question : String
  answer : String
deriving DecidableEq

/-- The three FAQ entries, verbatim from the source. -/
def FAQs : List FaqEntry :=
  [ { question := "What is AliComms?",
      answer := "Is a modern interactive e-commerce platform." },
    { question := "Are your products genuine?",
      answer := "Yes, we only sell genuine products from verified suppliers." },
    { question := "Which payment methods do you accept?",
      answer := "We accept all major credit and debit cards, as well as bank transfers, USSD, and mobile money." } ]

/-- Result of an awaited async storage call: it resolves with a value or rejects. -/
inductive AsyncResult (α : Type) where
  | ok (a : α)
  | rejected
deriving DecidableEq

/-- JavaScript truthiness of a `string | null` value, as used by
`if (hasVisited)`: `null` and the empty string are falsy. -/
def truthy : Option String → Bool
  | none => false
  | some s => s != ""

/-- Observable side effects performed by the `checkFirstTime` async closure. -/
inductive SideEffect where
  | logError
  | invokeOnDone
  | scheduleOnDone (delayMs : Nat)
  | writeStorage (key value : String)
  | setFirstTime (b : Bool)
deriving DecidableEq

/-- The async `checkFirstTime` closure: given the result of
`AsyncStorage.getItem("hasVisited")` and (if reached) of
`AsyncStorage.setItem("hasVisited", "true")`, it performs a list of side
effects and resolves with a value; the `Bool` component records whether it
resolved with the `clearTimeout` cleanup closure (`true` only in the
returning-user branch, which executes `return () => clearTimeout(timer)`).
A rejection of either awaited call lands in the `catch` block, which logs
and calls `onDone()`. -/
def checkFirstTimeAsync (get : AsyncResult (Option String)) (set : AsyncResult Unit) :
    List SideEffect × Bool :=
  match get with
  | .rejected => ([.logError, .invokeOnDone], false)
  | .ok v =>
    if truthy v then
      ([.scheduleOnDone 3000], true)
    else
      match set with
      | .rejected => ([.logError, .invokeOnDone], false)
      | .ok _ => ([.writeStorage "hasVisited" "true", .setFirstTime true], false)

/-- The `useEffect` body: it calls `checkFirstTime()` without awaiting and
returns `undefined`, so whatever cleanup the async closure later resolves
with is discarded; the cleanup React registers for this effect is `none`.
(A registered cleanup, were there one, would clear the pending timer; the
only cleanup closure in the program is `() => clearTimeout(timer)`, modelled
as `Unit`.) -/
def runEffectBody (get : AsyncResult (Option String)) (set : AsyncResult Unit) :
    List SideEffect × Option Unit :=
  ((checkFirstTimeAsync get set).1, none)

/-- Times of the immediate `onDone()` invocations among the effects
(they run at time 0, during the effect itself). -/
def immediateOnDones (effects : List SideEffect) : List Nat :=
  effects.filterMap fun e =>
    match e with
    | .invokeOnDone => some 0
    | _ => none

/-- Deadlines of the `setTimeout(onDone, _)` timers among the effects. -/
def scheduledDeadlines (effects : List SideEffect) : List Nat :=
  effects.filterMap fun e =>
    match e with
    | .scheduleOnDone d => some d
    | _ => none

/-- Whether a scheduled timer fires: if the component is torn down at time
`u` and a cleanup clearing the timer was registered, the timer fires only
when its deadline already passed; with no registered cleanup (or no
unmount) nothing ever clears it and it fires. -/
def timerFiresGiven (deadline : Nat) (registeredCleanup : Option Unit)
    (unmountAt : Option Nat) : Bool :=
  match unmountAt, registeredCleanup with
  | some u, some _ => decide (deadline ≤ u)
  | _, _ => true

/-- All times at which `onDone()` runs for a `SplashScreen` whose effect saw
the given storage results, when the component is unmounted at `unmountAt`
(`none` = stays mounted until `onDone` itself unmounts it). -/
def splashOnDoneTimes (get : AsyncResult (Option String)) (set : AsyncResult Unit)
    (unmountAt : Option Nat) : List Nat :=
  let r := runEffectBody get set
  immediateOnDones r.1 ++
    (scheduledDeadlines r.1).filter fun d => timerFiresGiven d r.2 unmountAt

/-- External key-value storage contents. -/
abbrev Storage := List (String × String)

/-- `AsyncStorage.getItem` against concrete contents. -/
def getItem (s : Storage) (key : String) : Option String :=
  (s.find? fun p => p.1 == key).map fun p => p.2

/-- `AsyncStorage.setItem` against concrete contents (map update). -/
def setItem (s : Storage) (key value : String) : Storage :=
  (key, value) :: s.filter fun p => p.1 != key

/-- Apply the successful storage writes among the effects to the store. -/
def applyWrites (s : Storage) : List SideEffect → Storage
  | [] => s
  | .writeStorage k v :: rest => applyWrites (setItem s k v) rest
  | _ :: rest => applyWrites s rest

/-- The value of the `isFirstTime` state after the effects ran: it starts as
`null` (`none`) and each `setIsFirstTime(b)` overwrites it. -/
def finalFirstTime (effects : List SideEffect) : Option Bool :=
  effects.foldl (fun acc e =>
    match e with
    | .setFirstTime b => some b
    | _ => acc) none

/-- `currentFAQ` starts at 0 (`useState(0)`). -/
def initialFAQIndex : Nat := 0

/-- What `SplashScreen` renders. `welcomeBack` is the branch containing the
`loader.gif` image and the Welcome Back texts. -/
inductive SplashRender where
  | loadingSpinner
  | welcomeBack
  | carousel (index : Nat)
deriving DecidableEq

/-- The render function of `SplashScreen`: `null` shows the
`ActivityIndicator`, `false` the Welcome Back view, `true` the carousel at
`currentFAQ`. -/
def renderSplash (isFirstTime : Option Bool) (currentFAQ : Nat) : SplashRender :=
  match isFirstTime with
  | none => .loadingSpinner
  | some false => .welcomeBack
  | some true => .carousel currentFAQ

/-- Whether a rendered view contains the bundled `loader.gif` asset: only
the Welcome Back branch does. -/
def viewShowsLoaderGif : SplashRender → Bool
  | .welcomeBack => true
  | _ => false

/-- One animation step: `Animated.timing(fadeAnim, {toValue, duration})`. -/
inductive AnimStep where
  | fadeTo (target duration : Nat)
deriving DecidableEq

/-- The `Animated.sequence` run by `handleNextFAQ`: fade out over 300 ms,
then fade in over 300 ms. -/
def nextFAQAnimation : List AnimStep :=
  [.fadeTo 0 300, .fadeTo 1 300]

/-- Effect of pressing the action button. -/
inductive PressEffect where
  | anim (steps : List AnimStep) (nextIndex : Nat)
  | done
deriving DecidableEq

/-- The button's `onPress`:
`currentFAQ < FAQs.length - 1 ? handleNextFAQ : onDone`. `handleNextFAQ`
runs the fade sequence and then sets `currentFAQ` to
`(currentFAQ + 1) % FAQs.length`. -/
def pressButton (currentFAQ : Nat) : PressEffect :=
  if currentFAQ < FAQs.length - 1 then
    .anim nextFAQAnimation ((currentFAQ + 1) % FAQs.length)
  else
    .done

/-- Observable events in a component-lifetime trace. -/
inductive TraceEvent where
  | animSeq (steps : List AnimStep)
  | indexChange (newIndex : Nat)
  | onDone
  | logged
deriving DecidableEq

/-- Interactive-mode trace: the user presses the action button up to
`presses` times starting from index `idx`; a press that invokes `onDone`
unmounts the component so later presses produce nothing. -/
def interactiveTrace : Nat → Nat → List TraceEvent
  | 0, _ => []
  | n + 1, idx =>
    match pressButton idx with
    | .anim steps next => .animSeq steps :: .indexChange next :: interactiveTrace n next
    | .done => [.onDone]

/-- Trace contributed by one side effect of the mount effect, for a
component that stays mounted until `onDone` (so a scheduled timer fires,
no cleanup being registered), with `presses` button presses once
interactive mode is entered. -/
def effectTrace (presses : Nat) : SideEffect → List TraceEvent
  | .logError => [.logged]
  | .invokeOnDone => [.onDone]
  | .scheduleOnDone _ => [.onDone]
  | .writeStorage _ _ => []
  | .setFirstTime true => interactiveTrace presses initialFAQIndex
  | .setFirstTime false => []

/-- Full lifetime trace of `SplashScreen` for given storage results and a
number of user presses. -/
def pathTrace (get : AsyncResult (Option String)) (set : AsyncResult Unit)
    (presses : Nat) : List TraceEvent :=
  ((checkFirstTimeAsync get set).1).flatMap (effectTrace presses)

/-- Events delivered to the `WebViewComponent` by the embedded engine. -/
inductive WebEvent where
  | loadError (description : String)
  | httpError (statusCode : Nat)
deriving DecidableEq

/-- The message recorded for an event: `handleLoadError` sets
`"Load Error: " + description`, the `onHttpError` handler sets
`"HTTP Error: " + statusCode`. -/
def webErrorMessage : WebEvent → String
  | .loadError d => "Load Error: " ++ d
  | .httpError c => "HTTP Error: " ++ toString c

/-- The `errorMessage` state after a sequence of events: it starts `null`
and each event overwrites it via `setErrorMessage`. -/
def webErrorState (events : List WebEvent) : Option String :=
  events.foldl (fun _s e => some (webErrorMessage e)) none

/-- Content of the browser pane: the mounted `WebView`, or the full-screen
`renderError` view that replaces it. -/
inductive PaneContent where
  | browser
  | fullScreenError (text : String)
deriving DecidableEq

/-- What `WebViewComponent` shows: the pane content plus the banners
overlaid at the bottom (`{errorMessage && <banner>}` renders one banner
exactly when `errorMessage` is non-null). -/
structure PaneView where
  content : PaneContent
  banners : List String
deriving DecidableEq

/-- The render of `WebViewComponent`: `renderErr` is the name reported by
the engine's render error, if any (the `renderError` prop builds the view
`"WebView Error: " + errorName` in place of the browser content). -/
def renderWebPane (renderErr : Option String) (errorMessage : Option String) : PaneView :=
  { content :=
      match renderErr with
      | some n => .fullScreenError ("WebView Error: " ++ n)
      | none => .browser,
    banners :=
      match errorMessage with
      | none => []
      | some m => [m] }

/-- `getItem` after `setItem` of the same key reads back the written value. -/
theorem getItem_setItem (s : Storage) (k v : String) :
    getItem (setItem s k v) k = some v := by
  unfold getItem setItem
  rw [List.find?_cons_of_pos _ (by simp)]
  rfl

/-- The `errorMessage` fold ends at the message of the last event,
whatever the initial state. -/
theorem foldl_lastMessage (events : List WebEvent) :
    ∀ (init : Option String) (e : WebEvent), events.getLast? = some e →
      events.foldl (fun _s ev => some (webErrorMessage ev)) init = some (webErrorMessage e) := by
  induction events with
  | nil =>
    intro init e h
    simp at h
  | cons a l ih =>
    intro init e h
    cases l with
    | nil =>
      simp at h
      subst h
      rfl
    | cons b l2 =>
      rw [List.getLast?_cons_cons] at h
      exact ih (some (webErrorMessage a)) e h

/-- The recorded `errorMessage` after a nonempty event sequence is the
message of the most recent event. -/
theorem webErrorState_last (events : List WebEvent) (e : WebEvent)
    (h : events.getLast? = some e) :
    webErrorState events = some (webErrorMessage e) :=
  foldl_lastMessage events none e h

/-- C1: over the 3000 ms auto-advance timer path, the storage-failure path,
and the complete interactive carousel path (at least 3 presses), the
lifetime trace of the onboarding component contains exactly one `onDone`
invocation. -/
theorem onDone_exactly_once_per_path (n : Nat) (h : 3 ≤ n) :
    (pathTrace (.ok (some "true")) (.ok ()) 0).count .onDone = 1 ∧
    (pathTrace .rejected (.ok ()) 0).count .onDone = 1 ∧
    (pathTrace (.ok none) (.ok ()) n).count .onDone = 1 := by
  refine ⟨rfl, rfl, ?_⟩
  obtain ⟨k, rfl⟩ := Nat.exists_eq_add_of_le' h
  rfl

/-- Witness for C1 at 3 presses. -/
theorem onDone_exactly_once_per_path_witness :
    3 ≤ 3 ∧ (pathTrace (.ok none) (.ok ()) 3).count .onDone = 1 :=
  ⟨by decide, (onDone_exactly_once_per_path 3 (by decide)).2.2⟩

/-- C2: the effect body registers no cleanup with React (the `clearTimeout`
closure is only the resolution value of the async call), so for a returning
user unmounted at 1000 ms the 3000 ms timer still fires and `onDone` runs
at 3000 ms, after unmount. -/
theorem timer_not_cancelled_on_unmount :
    splashOnDoneTimes (.ok (some "true")) (.ok ()) (some 1000) = [3000] ∧
    (runEffectBody (.ok (some "true")) (.ok ())).2 = none ∧
    (checkFirstTimeAsync (.ok (some "true")) (.ok ())).2 = true :=
  ⟨rfl, rfl, rfl⟩

/-- C3: when `hasVisited` is absent and storage works, the controller
writes `hasVisited = "true"` and renders the carousel at index 0. -/
theorem first_visit_writes_flag_and_enters_interactive (s : Storage)
    (h : getItem s "hasVisited" = none) :
    getItem (applyWrites s (checkFirstTimeAsync (.ok (getItem s "hasVisited")) (.ok ())).1)
      "hasVisited" = some "true" ∧
    renderSplash (finalFirstTime (checkFirstTimeAsync (.ok (getItem s "hasVisited")) (.ok ())).1)
      initialFAQIndex = .carousel 0 := by
  rw [h]
  exact ⟨getItem_setItem s "hasVisited" "true", rfl⟩

/-- Witness for C3 on empty storage. -/
theorem first_visit_writes_flag_and_enters_interactive_witness :
    getItem ([] : Storage) "hasVisited" = none ∧
    getItem (applyWrites ([] : Storage)
        (checkFirstTimeAsync (.ok (getItem ([] : Storage) "hasVisited")) (.ok ())).1)
      "hasVisited" = some "true" :=
  ⟨rfl, (first_visit_writes_flag_and_enters_interactive [] rfl).1⟩

/-- C4: when `hasVisited` holds `"true"`, `onDone` runs exactly at 3000 ms
(not before, not again), `isFirstTime` is never set, and the carousel view
is never rendered during the session. -/
theorem returning_user_auto_advance :
    splashOnDoneTimes (.ok (some "true")) (.ok ()) none = [3000] ∧
    finalFirstTime (checkFirstTimeAsync (.ok (some "true")) (.ok ())).1 = none ∧
    ∀ i j, renderSplash none i ≠ SplashRender.carousel j :=
  ⟨rfl, rfl, fun _ _ hc => nomatch hc⟩

/-- C5: pressing the action button below the last index runs the fade-out
then fade-in sequence and advances the index by one mod the number of
entries; pressing it at the last index invokes `onDone` directly with no
animation and no index change. -/
theorem press_semantics (i : Nat) (h : i < FAQs.length) :
    (i < FAQs.length - 1 →
      pressButton i = .anim nextFAQAnimation ((i + 1) % FAQs.length) ∧
      nextFAQAnimation = [.fadeTo 0 300, .fadeTo 1 300]) ∧
    (i = FAQs.length - 1 → pressButton i = .done) := by
  constructor
  · intro hi
    refine ⟨?_, rfl⟩
    unfold pressButton
    rw [if_pos hi]
  · intro hi
    subst hi
    unfold pressButton
    rw [if_neg (lt_irrefl _)]

/-- Witness for C5 at index 0. -/
theorem press_semantics_witness :
    0 < FAQs.length ∧
    ((0 < FAQs.length - 1 →
      pressButton 0 = .anim nextFAQAnimation ((0 + 1) % FAQs.length) ∧
      nextFAQAnimation = [.fadeTo 0 300, .fadeTo 1 300]) ∧
    (0 = FAQs.length - 1 → pressButton 0 = .done)) :=
  ⟨by decide, press_semantics 0 (by decide)⟩

/-- C6: a rejected `getItem` lands in the catch block, which logs the error
and invokes `onDone` immediately (time 0), whatever the write capability
would have done. -/
theorem read_failure_fail_open :
    (∀ set, (checkFirstTimeAsync .rejected set).1 = [.logError, .invokeOnDone]) ∧
    splashOnDoneTimes .rejected (.ok ()) none = [0] ∧
    splashOnDoneTimes .rejected .rejected none = [0] :=
  ⟨fun _ => rfl, rfl, rfl⟩

/-- C7: after any nonempty sequence of load and HTTP error events, exactly
one banner is visible, its text is the message of the most recent event
(last-write-wins), and the browser content stays mounted whatever the
recorded message is. -/
theorem latest_error_banner (events : List WebEvent) (e : WebEvent)
    (h : events.getLast? = some e) :
    (renderWebPane none (webErrorState events)).banners = [webErrorMessage e] ∧
    ∀ msg, (renderWebPane none msg).content = PaneContent.browser := by
  refine ⟨?_, fun _ => rfl⟩
  rw [webErrorState_last events e h]
  rfl

/-- Witness for C7 on a single connection-refused load error. -/
theorem latest_error_banner_witness :
    ([WebEvent.loadError "net::ERR_CONNECTION_REFUSED"].getLast?
      = some (WebEvent.loadError "net::ERR_CONNECTION_REFUSED")) ∧
    (renderWebPane none
        (webErrorState [WebEvent.loadError "net::ERR_CONNECTION_REFUSED"])).banners
      = [webErrorMessage (WebEvent.loadError "net::ERR_CONNECTION_REFUSED")] :=
  ⟨by simp,
    (latest_error_banner [WebEvent.loadError "net::ERR_CONNECTION_REFUSED"]
      (WebEvent.loadError "net::ERR_CONNECTION_REFUSED") (by simp)).1⟩

/-- C8: a render error from the engine replaces the pane content with the
full-screen text built from the error name; with no load or HTTP error
recorded there is no banner, and the browser view is gone. -/
theorem render_error_full_screen (name : String) :
    (renderWebPane (some name) none).content
      = .fullScreenError ("WebView Error: " ++ name) ∧
    (renderWebPane (some name) none).banners = [] ∧
    (renderWebPane (some name) none).content ≠ PaneContent.browser :=
  ⟨rfl, rfl, fun hc => nomatch hc⟩

/-- Witness for C8 at the error name `"timeout"`. -/
theorem render_error_full_screen_witness :
    (renderWebPane (some "timeout") none).content
      = .fullScreenError ("WebView Error: " ++ "timeout") ∧
    (renderWebPane (some "timeout") none).banners = [] ∧
    (renderWebPane (some "timeout") none).content ≠ PaneContent.browser :=
  render_error_full_screen "timeout"

/-- C9: in the returning-user path no effect ever sets `isFirstTime`, so it
stays `null` and the component renders the loading spinner, not the
Welcome Back view with the `loader.gif`; indeed no execution of the effect
ever sets `isFirstTime` to `false`, so the gif view is unreachable. -/
theorem returning_user_gif_unreachable :
    finalFirstTime (checkFirstTimeAsync (.ok (some "true")) (.ok ())).1 = none ∧
    viewShowsLoaderGif (renderSplash
      (finalFirstTime (checkFirstTimeAsync (.ok (some "true")) (.ok ())).1)
      initialFAQIndex) = false ∧
    renderSplash none initialFAQIndex = .loadingSpinner ∧
    ∀ g s, SideEffect.setFirstTime false ∉ (checkFirstTimeAsync g s).1 := by
  refine ⟨rfl, rfl, rfl, fun g s => ?_⟩
  cases g with
  | rejected => simp [checkFirstTimeAsync]
  | ok v =>
    cases s with
    | ok u => by_cases hv : truthy v <;> simp [checkFirstTimeAsync, hv]
    | rejected => by_cases hv : truthy v <;> simp [checkFirstTimeAsync, hv]

/-- C10: a read of `null` followed by a rejected write lands in the catch
block: the error is logged, `onDone` runs immediately, `isFirstTime` is
never set and the carousel is never rendered. -/
theorem write_failure_fail_open :
    (checkFirstTimeAsync (.ok none) .rejected).1 = [.logError, .invokeOnDone] ∧
    splashOnDoneTimes (.ok none) .rejected none = [0] ∧
    finalFirstTime (checkFirstTimeAsync (.ok none) .rejected).1 = none ∧
    ∀ i j, renderSplash (finalFirstTime (checkFirstTimeAsync (.ok none) .rejected).1) i
      ≠ SplashRender.carousel j :=
  ⟨rfl, rfl, rfl, fun _ _ hc => nomatch hc⟩

end AlicommsApp
